import Mathlib

/-! Shallow embedding of the bxCAN driver in src/can.rs of oxcc-stm32f767-hal.

Registers are modeled as natural numbers kept below 2^32 by explicit masking,
mirroring the 32-bit hardware registers behind the svd2rust accessors used by
the driver.  Field accessors follow the STM32F7 bxCAN register layout:

* TIxR / RIxR: TXRQ bit 0 (TIxR only), RTR bit 1, IDE bit 2,
  EXID bits 3-20 (an 18-bit field), STID bits 21-31 (an 11-bit field).
* TDTxR / RDTxR: DLC bits 0-3 (a 4-bit field), TGT bit 8 (TDTxR only).
* TDLxR / RDLxR hold payload bytes 0-3 and TDHxR / RDHxR bytes 4-7, one
  8-bit byte lane each.
* FMR: the FINIT flag and the 6-bit CAN2SB start-bank field.
* RFxR: the 2-bit FMP pending count and the FULL, FOVR, RFOM flags.

svd2rust field writes mask the written value to the field width; whole-register
accesses (the bits method) use the raw 32-bit value.  Integer arithmetic
follows the unchecked (release) Rust semantics the crate is built with:
results wrap modulo 2^32 and shift amounts are reduced modulo the width.
Rust operations that can abort execution are modeled through Option-valued
primitives, so that a panic surfaces as a none result; the driver functions
thus return Option values, and whether an operation can abort is a theorem
about the model, not an assumption.

Every register write appends an event to a log carried in the state, so that
theorems can speak about which registers a call writes and how many times.
The per-frame types (identifier, data frame, remote frame) come from the
embedded-types crate; they are modeled from the interface and behavior the
driver relies on: a data frame holds an identifier, an explicit length and
an eight-byte backing array; new frames start zeroed; set_data_length
asserts that the length is at most 8 before storing it (the assertion
failure is a panic, modeled as none); and the data and data_as_mut
accessors hand out the length-bounded slice over the backing array, so
creating or indexing the slice of an over-length frame aborts.  As a
consequence the fall-through InvalidFrame arms of the driver's payload
loops are unreachable: decoding a non-remote entry whose DLC field exceeds
8 aborts in set_data_length before the loop runs, and a data frame with
length above 8 cannot be constructed through the frame interface at all.

The source duplicates one body per mailbox (transmit_mb0/1/2, identical up
to the register instance) and one match arm per filter bank (28 homogeneous
arms); these are embedded once, indexed by Fin 3 and Fin 28 respectively,
with the out-of-range arm of the source's match kept as the error case. -/

namespace Can

/-- Truncation to a 32-bit register value. -/
def mask32 (x : Nat) : Nat := x % 2 ^ 32

/-- Bitwise complement within 32 bits (the Rust not operator on u32). -/
def not32 (x : Nat) : Nat := (2 ^ 32 - 1) ^^^ (x % 2 ^ 32)

/-- Set bit i of a 32-bit register value. -/
def setBit32 (v i : Nat) : Nat := mask32 (v ||| (1 <<< i))

/-- Clear bit i of a 32-bit register value. -/
def clearBit32 (v i : Nat) : Nat := mask32 (v &&& not32 (1 <<< i))

/-- Read byte lane j (0-3) of a 32-bit data register. -/
def getByte (v j : Nat) : Nat := (v >>> (8 * j)) % 2 ^ 8

/-- Write byte lane j (0-3) of a 32-bit data register (an 8-bit field write,
so the value is masked to 8 bits, as svd2rust field writes do). -/
def setByte32 (v j b : Nat) : Nat :=
  mask32 ((v &&& not32 (255 <<< (8 * j))) ||| ((b % 2 ^ 8) <<< (8 * j)))

/-- src/can.rs MAX_BLOCK_TICKS: the fixed transmit-completion poll budget. -/
def MAX_BLOCK_TICKS : Nat := 16 * 10

/-- src/can.rs CanError. -/
inductive CanError
  | BufferExhausted
  | ConfigurationFailed
  | InvalidFrame
  | Timeout
deriving DecidableEq

/-- CAN identifier from the embedded-types crate: 11-bit base or 29-bit
extended identifier value. -/
inductive ID
  | BaseID (v : Nat)
  | ExtendedID (v : Nat)
deriving DecidableEq

/-- Data frame, following the embedded-types interface the driver uses:
an identifier, an explicit payload length, and eight byte lanes. -/
structure DataFrame where
  id : ID
  length : Nat
  data : Fin 8 → Nat

/-- Tagged union over data and remote frames (embedded-types CanFrame). -/
inductive CanFrame
  | DataFrame (df : DataFrame)
  | RemoteFrame (id : ID)

/-- The identifier of a frame (embedded-types CanFrame::id). -/
def CanFrame.id : CanFrame → ID
  | .DataFrame df => df.id
  | .RemoteFrame i => i

/-- embedded-types DataFrame::new: a zero-length frame with zeroed lanes. -/
def DataFrame.new (idv : ID) : DataFrame :=
  { id := idv, length := 0, data := fun _ => 0 }

/-- embedded-types DataFrame::set_data_length: asserts the length is at most
8 (an assertion failure is a panic, surfacing as none), then stores it. -/
def set_data_length (df : DataFrame) (len : Nat) : Option DataFrame :=
  if len ≤ 8 then some { df with length := len } else none

/-- u32::from on an identifier: the raw identifier value. -/
def idToU32 : ID → Nat
  | .BaseID v => v
  | .ExtendedID v => v

/-- src/can.rs RxFifo. -/
inductive RxFifo
  | Fifo0
  | Fifo1

/-- src/can.rs FilterMode. -/
inductive FilterMode
  | IdMask
  | IdList

/-- src/can.rs FilterScale. -/
inductive FilterScale
  | Fs16Bit
  | Fs32Bit

/-- src/can.rs CanFilterConfig.  The u8 fields (filter_number, bank_number)
and u32 fields (id and mask halves) are modeled as naturals; the register
writes apply the field masks the hardware accessors apply. -/
structure CanFilterConfig where
  filter_number : Nat
  bank_number : Nat
  fifo_assignment : RxFifo
  mode : FilterMode
  scale : FilterScale
  filter_id_high : Nat
  filter_id_low : Nat
  filter_mask_id_high : Nat
  filter_mask_id_low : Nat
  enabled : Bool

/-- Register-access events: one per register write performed by the driver,
plus one poll event per evaluation of the transmit completion status. -/
inductive Ev
  | WrTi (m : Fin 3)
  | WrTdt (m : Fin 3)
  | WrTdl (m : Fin 3)
  | WrTdh (m : Fin 3)
  | WrAbrq (m : Fin 3)
  | WrRfr (f : Fin 2)
  | WrFmr
  | WrFa1r
  | WrFm1r
  | WrFfa1r
  | WrFs1r
  | WrFr1 (i : Fin 28)
  | WrFr2 (i : Fin 28)
  | PollTx (m : Fin 3)
deriving DecidableEq

/-- The register state visible to the driver.  TSR status bits are broken out
per mailbox; mailbox, FIFO and filter-bank registers are indexed families.
The log records every write (most recent first). -/
structure CanState where
  tme : Fin 3 → Bool
  rqcp : Fin 3 → Bool
  txok : Fin 3 → Bool
  abrq : Fin 3 → Bool
  ti : Fin 3 → Nat
  tdt : Fin 3 → Nat
  tdl : Fin 3 → Nat
  tdh : Fin 3 → Nat
  fmp : Fin 2 → Nat
  rfom : Fin 2 → Bool
  fovr : Fin 2 → Bool
  fullf : Fin 2 → Bool
  rir : Fin 2 → Nat
  rdt : Fin 2 → Nat
  rdl : Fin 2 → Nat
  rdh : Fin 2 → Nat
  finit : Bool
  can2sb : Nat
  fa1r : Nat
  fm1r : Nat
  ffa1r : Nat
  fs1r : Nat
  fr1 : Fin 28 → Nat
  fr2 : Fin 28 → Nat
  log : List Ev

/-! ### Register write primitives (each one logs one write event) -/

def wrTi (m : Fin 3) (v : Nat) (s : CanState) : CanState :=
  { s with ti := Function.update s.ti m (mask32 v), log := Ev.WrTi m :: s.log }

def modTi (m : Fin 3) (f : Nat → Nat) (s : CanState) : CanState :=
  { s with ti := Function.update s.ti m (mask32 (f (s.ti m))),
           log := Ev.WrTi m :: s.log }

def wrTdt (m : Fin 3) (v : Nat) (s : CanState) : CanState :=
  { s with tdt := Function.update s.tdt m (mask32 v), log := Ev.WrTdt m :: s.log }

def modTdt (m : Fin 3) (f : Nat → Nat) (s : CanState) : CanState :=
  { s with tdt := Function.update s.tdt m (mask32 (f (s.tdt m))),
           log := Ev.WrTdt m :: s.log }

/-- Read-modify-write of one byte lane (j in 0-3) of TDLxR. -/
def wrTdlByte (m : Fin 3) (j b : Nat) (s : CanState) : CanState :=
  { s with tdl := Function.update s.tdl m (setByte32 (s.tdl m) j b),
           log := Ev.WrTdl m :: s.log }

/-- Read-modify-write of one byte lane (j in 0-3) of TDHxR. -/
def wrTdhByte (m : Fin 3) (j b : Nat) (s : CanState) : CanState :=
  { s with tdh := Function.update s.tdh m (setByte32 (s.tdh m) j b),
           log := Ev.WrTdh m :: s.log }

/-- TSR write setting the abort-request bit of mailbox m. -/
def setAbrq (m : Fin 3) (s : CanState) : CanState :=
  { s with abrq := Function.update s.abrq m true, log := Ev.WrAbrq m :: s.log }

/-- One evaluation of the transmit completion status (a TSR read; logged so
the tick budget is observable). -/
def logPoll (m : Fin 3) (s : CanState) : CanState :=
  { s with log := Ev.PollTx m :: s.log }

/-- RFxR write releasing the FIFO output and clearing the overrun and full
flags (one register write). -/
def wrRfrRelease (f : Fin 2) (s : CanState) : CanState :=
  { s with rfom := Function.update s.rfom f true,
           fovr := Function.update s.fovr f false,
           fullf := Function.update s.fullf f false,
           log := Ev.WrRfr f :: s.log }

/-- FMR write setting or clearing FINIT. -/
def wrFinit (b : Bool) (s : CanState) : CanState :=
  { s with finit := b, log := Ev.WrFmr :: s.log }

/-- FMR write of the 6-bit CAN2SB field (svd2rust masks the value). -/
def wrCan2sb (v : Nat) (s : CanState) : CanState :=
  { s with can2sb := v % 2 ^ 6, log := Ev.WrFmr :: s.log }

def modFa1r (f : Nat → Nat) (s : CanState) : CanState :=
  { s with fa1r := mask32 (f s.fa1r), log := Ev.WrFa1r :: s.log }

def modFm1r (f : Nat → Nat) (s : CanState) : CanState :=
  { s with fm1r := mask32 (f s.fm1r), log := Ev.WrFm1r :: s.log }

def modFfa1r (f : Nat → Nat) (s : CanState) : CanState :=
  { s with ffa1r := mask32 (f s.ffa1r), log := Ev.WrFfa1r :: s.log }

def modFs1r (f : Nat → Nat) (s : CanState) : CanState :=
  { s with fs1r := mask32 (f s.fs1r), log := Ev.WrFs1r :: s.log }

def wrFr1 (i : Fin 28) (v : Nat) (s : CanState) : CanState :=
  { s with fr1 := Function.update s.fr1 i (mask32 v), log := Ev.WrFr1 i :: s.log }

def wrFr2 (i : Fin 28) (v : Nat) (s : CanState) : CanState :=
  { s with fr2 := Function.update s.fr2 i (mask32 v), log := Ev.WrFr2 i :: s.log }

/-! ### Filter bank programming (src/can.rs configure_filter, set_filter_scale) -/

/-- src/can.rs line 269: let filter_num_bitpos = 1 shl config.filter_number.
filter_number is a u8; in the unchecked build the shift amount of a 32-bit
shift is reduced modulo 32. -/
def filter_num_bitpos (fn_ : Nat) : Nat := 1 <<< (fn_ % 32)

/-- src/can.rs set_filter_scale: writes FS1R and, through the 28-arm match on
filter_number (embedded here as an index into the FiRx families), the two
filter-bank registers; a filter_number of 28 or more hits the fall-through
arm and returns ConfigurationFailed. -/
def set_filter_scale (config : CanFilterConfig) (s : CanState) :
    Except CanError Unit × CanState :=
  let bitpos := filter_num_bitpos config.filter_number
  match config.scale with
  | FilterScale.Fs16Bit =>
    -- dual 16 bit scale
    let s := modFs1r (fun v => v &&& not32 bitpos) s
    if h : config.filter_number < 28 then
      -- first 16 bit id and first 16 bit mask (or first/second 16 bit ids)
      let s := wrFr1 ⟨config.filter_number, h⟩
        ((config.filter_mask_id_low <<< 16) ||| config.filter_id_low) s
      -- second 16 bit id and second 16 bit mask (or third/fourth 16 bit ids)
      let s := wrFr2 ⟨config.filter_number, h⟩
        ((config.filter_mask_id_high <<< 16) ||| config.filter_id_high) s
      (Except.ok (), s)
    else
      (Except.error CanError.ConfigurationFailed, s)
  | FilterScale.Fs32Bit =>
    -- single 32 bit scale
    let s := modFs1r (fun v => v ||| bitpos) s
    if h : config.filter_number < 28 then
      -- 32 bit id or first 32 bit id
      let s := wrFr1 ⟨config.filter_number, h⟩
        ((config.filter_id_high <<< 16) ||| config.filter_id_low) s
      -- 32 bit mask or second 32 bit id (the source repeats mask_id_high)
      let s := wrFr2 ⟨config.filter_number, h⟩
        ((config.filter_mask_id_high <<< 16) ||| config.filter_mask_id_high) s
      (Except.ok (), s)
    else
      (Except.error CanError.ConfigurationFailed, s)

/-- src/can.rs configure_filter. -/
def configure_filter (config : CanFilterConfig) (s : CanState) :
    Except CanError Unit × CanState :=
  let bitpos := filter_num_bitpos config.filter_number
  -- enter filter initialization mode
  let s := wrFinit true s
  -- select start slave bank
  let s := wrCan2sb config.bank_number s
  -- filter deactivation
  let s := modFa1r (fun v => v &&& not32 bitpos) s
  match set_filter_scale config s with
  | (Except.error e, s) =>
    -- leave initialization mode
    (Except.error e, wrFinit false s)
  | (Except.ok _, s) =>
    -- filter mode
    let s :=
      match config.mode with
      | FilterMode.IdMask => modFm1r (fun v => v &&& not32 bitpos) s
      | FilterMode.IdList => modFm1r (fun v => v ||| bitpos) s
    -- FIFO assignment
    let s :=
      match config.fifo_assignment with
      | RxFifo.Fifo0 => modFfa1r (fun v => v &&& not32 bitpos) s
      | RxFifo.Fifo1 => modFfa1r (fun v => v ||| bitpos) s
    -- filter activation
    let s := if config.enabled then modFa1r (fun v => v ||| bitpos) s else s
    -- leave initialization mode
    (Except.ok (), wrFinit false s)

/-! ### Frame codec and transmit path -/

/-- TIxR value written for an extended identifier: write from reset (0),
setting IDE (bit 2) and the 18-bit EXID field (bits 3-20); the field write
masks the 29-bit identifier value to 18 bits. -/
def tirExtended (id32 : Nat) : Nat := (1 <<< 2) ||| ((id32 % 2 ^ 18) <<< 3)

/-- TIxR value written for a base identifier: write from reset (0) with IDE
clear and the 11-bit STID field (bits 21-31) set from the identifier cast to
u16 and masked to the field width. -/
def tirBase (id32 : Nat) : Nat := ((id32 % 2 ^ 16) % 2 ^ 11) <<< 21

/-- Reading payload byte i of a data frame: the data accessor exposes the
length-bounded slice over the eight-byte backing array, so the read is
defined only for i below the frame's length (and below 8, the array bound
set_data_length maintains); out of bounds it aborts (none). -/
def frameByte (df : DataFrame) (i : Nat) : Option Nat :=
  if _ : i < df.length then
    if h8 : i < 8 then some (df.data ⟨i, h8⟩) else none
  else none

/-- Writing payload byte i of a decoded data frame through the length-bounded
data_as_mut slice; out of bounds it aborts (none). -/
def frameSetByte (df : DataFrame) (i : Nat) (b : Nat) : Option DataFrame :=
  if _ : i < df.length then
    if h8 : i < 8 then some { df with data := Function.update df.data ⟨i, h8⟩ b }
    else none
  else none

/-- One iteration of the transmit data loop (src/can.rs transmit_mbX, match
on index): lanes 0-3 land in TDLxR, lanes 4-7 in TDHxR, any other index hits
the fall-through arm and fails with InvalidFrame (unreachable, since the
loop runs over the slice length, which is at most 8). -/
def txLane (m : Fin 3) (df : DataFrame) (i : Nat) (s : CanState) :
    Option (Except CanError CanState) :=
  match i with
  | 0 => (frameByte df 0).map fun b => Except.ok (wrTdlByte m 0 b s)
  | 1 => (frameByte df 1).map fun b => Except.ok (wrTdlByte m 1 b s)
  | 2 => (frameByte df 2).map fun b => Except.ok (wrTdlByte m 2 b s)
  | 3 => (frameByte df 3).map fun b => Except.ok (wrTdlByte m 3 b s)
  | 4 => (frameByte df 4).map fun b => Except.ok (wrTdhByte m 0 b s)
  | 5 => (frameByte df 5).map fun b => Except.ok (wrTdhByte m 1 b s)
  | 6 => (frameByte df 6).map fun b => Except.ok (wrTdhByte m 2 b s)
  | 7 => (frameByte df 7).map fun b => Except.ok (wrTdhByte m 3 b s)
  | _ => some (Except.error CanError.InvalidFrame)

/-- The transmit data loop over the payload indices.  An early error keeps
the registers written so far (the Rust return leaves them in place), so the
error carries the state at the failure point. -/
def txDataGo (m : Fin 3) (df : DataFrame) :
    List Nat → CanState → Option (Except (CanError × CanState) CanState)
  | [], s => some (Except.ok s)
  | i :: rest, s =>
    match txLane m df i s with
    | none => none
    | some (Except.error e) => some (Except.error (e, s))
    | some (Except.ok s') => txDataGo m df rest s'

/-- src/can.rs get_tx_status: request-completed, transmit-ok and
mailbox-empty, all three TSR bits of the mailbox. -/
def get_tx_status (s : CanState) (m : Fin 3) : Bool :=
  s.rqcp m && s.txok m && s.tme m

/-- The transmit completion busy-wait of transmit_mbX.  The source counts
ticks upward and aborts when ticks reaches MAX_BLOCK_TICKS after a failed
status check; here the remaining budget counts down (remaining =
MAX_BLOCK_TICKS - 1 - ticks), so each call checks the status once and the
abort fires on the check that exhausts the budget. -/
def pollLoopAux (m : Fin 3) : Nat → CanState → Except CanError Unit × CanState
  | remaining, s =>
    let s' := logPoll m s
    if get_tx_status s' m then (Except.ok (), s')
    else
      match remaining with
      | 0 => (Except.error CanError.Timeout, setAbrq m s')
      | r + 1 => pollLoopAux m r s'

/-- The tail of transmit_mbX after the DLC/payload setup: an early
InvalidFrame return keeps the registers written so far; otherwise TGT is
cleared, the transmission request is set and the bounded completion wait
runs. -/
def txFinish (m : Fin 3) (res : Option (Except (CanError × CanState) CanState)) :
    Option (Except CanError Unit × CanState) :=
  match res with
  | none => none
  | some (Except.error (e, s3)) => some (Except.error e, s3)
  | some (Except.ok s3) =>
    -- do not transmit global time
    let s4 := modTdt m (fun v => clearBit32 v 8) s3
    -- request transmission
    let s5 := modTi m (fun v => setBit32 v 0) s4
    -- wait for completion or the tick budget
    some (pollLoopAux m (MAX_BLOCK_TICKS - 1) s5)

/-- src/can.rs transmit_mb0/1/2, embedded once and indexed by the mailbox:
identifier setup (from TIxR reset), RTR for remote frames, DLC and payload
for data frames (DLC is a 4-bit field fed the length cast to u8), TGT clear,
transmission request, then the bounded completion wait. -/
def transmit_mb (m : Fin 3) (frame : CanFrame) (s : CanState) :
    Option (Except CanError Unit × CanState) :=
  -- setup ID, start from TIxR reset
  let s1 :=
    match frame.id with
    | ID.ExtendedID _ => wrTi m (tirExtended (idToU32 frame.id)) s
    | ID.BaseID _ => wrTi m (tirBase (idToU32 frame.id)) s
  -- set RTR
  let s2 :=
    match frame with
    | CanFrame.RemoteFrame _ => modTi m (fun v => setBit32 v 1) s1
    | CanFrame.DataFrame _ => s1
  -- setup DLC (from TDTxR reset) and the payload lanes; the data accessor
  -- creates the length-bounded slice, which aborts for a frame whose length
  -- exceeds the backing array (such a frame the frame interface cannot
  -- construct)
  let dataStep : Option (Except (CanError × CanState) CanState) :=
    match frame with
    | CanFrame.DataFrame df =>
      if df.length ≤ 8 then
        txDataGo m df (List.range df.length) (wrTdt m ((df.length % 2 ^ 8) % 2 ^ 4) s2)
      else none
    | CanFrame.RemoteFrame _ => some (Except.ok (wrTdt m 0 s2))
  txFinish m dataStep

/-- src/can.rs transmit: first empty mailbox in the order 0, 1, 2, else
BufferExhausted. -/
def transmit (frame : CanFrame) (s : CanState) :
    Option (Except CanError Unit × CanState) :=
  if s.tme 0 then transmit_mb 0 frame s
  else if s.tme 1 then transmit_mb 1 frame s
  else if s.tme 2 then transmit_mb 2 frame s
  else some (Except.error CanError.BufferExhausted, s)

/-! ### Receive path -/

/-- RIxR IDE flag (bit 2). -/
def rirIde (v : Nat) : Bool := Nat.testBit v 2

/-- RIxR RTR flag (bit 1). -/
def rirRtr (v : Nat) : Bool := Nat.testBit v 1

/-- RIxR 11-bit STID field (bits 21-31). -/
def rirStid (v : Nat) : Nat := (v >>> 21) % 2 ^ 11

/-- RIxR 18-bit EXID field (bits 3-20). -/
def rirExid (v : Nat) : Nat := (v >>> 3) % 2 ^ 18

/-- One iteration of the receive data loop (match on the loop index): lanes
0-3 read RDLxR bytes, 4-7 read RDHxR bytes, any other index hits the
fall-through arm and fails with InvalidFrame (unreachable, since the loop
runs over the DLC and decoding only reaches it for DLC at most 8).  The
lane store into the frame goes through the length-bounded data_as_mut
slice. -/
def rxLane (rdlv rdhv : Nat) (df : DataFrame) (i : Nat) :
    Option (Except CanError DataFrame) :=
  match i with
  | 0 => (frameSetByte df 0 (getByte rdlv 0)).map fun df' => Except.ok df'
  | 1 => (frameSetByte df 1 (getByte rdlv 1)).map fun df' => Except.ok df'
  | 2 => (frameSetByte df 2 (getByte rdlv 2)).map fun df' => Except.ok df'
  | 3 => (frameSetByte df 3 (getByte rdlv 3)).map fun df' => Except.ok df'
  | 4 => (frameSetByte df 4 (getByte rdhv 0)).map fun df' => Except.ok df'
  | 5 => (frameSetByte df 5 (getByte rdhv 1)).map fun df' => Except.ok df'
  | 6 => (frameSetByte df 6 (getByte rdhv 2)).map fun df' => Except.ok df'
  | 7 => (frameSetByte df 7 (getByte rdhv 3)).map fun df' => Except.ok df'
  | _ => some (Except.error CanError.InvalidFrame)

/-- The receive data loop over 0..dlc. -/
def rxDataGo (rdlv rdhv : Nat) :
    List Nat → DataFrame → Option (Except CanError DataFrame)
  | [], df => some (Except.ok df)
  | i :: rest, df =>
    match rxLane rdlv rdhv df i with
    | none => none
    | some (Except.error e) => some (Except.error e)
    | some (Except.ok df') => rxDataGo rdlv rdhv rest df'

/-- The tail of receive_fifoX for a data entry: an early InvalidFrame return
leaves the registers untouched (no release); on success the decoded frame is
returned and the FIFO slot released. -/
def rxFinish (f : Fin 2) (s : CanState) (res : Option (Except CanError DataFrame)) :
    Option (Except CanError CanFrame × CanState) :=
  match res with
  | none => none
  | some (Except.error e) => some (Except.error e, s)
  | some (Except.ok df) =>
    some (Except.ok (CanFrame.DataFrame df), wrRfrRelease f s)

/-- src/can.rs receive_fifo0: zero pending is BufferExhausted; the extended
identifier is reconstructed as the whole RI0R value shifted right by 3; a
remote entry ignores DLC; for a data entry, a fresh frame's length is set to
dlc through set_data_length (whose length assertion aborts for dlc above 8)
and dlc byte lanes are read in; on success the FIFO is released. -/
def receive_fifo0 (s : CanState) : Option (Except CanError CanFrame × CanState) :=
  let pending := s.fmp 0
  if pending = 0 then
    some (Except.error CanError.BufferExhausted, s)
  else
    let rirv := s.rir 0
    let ext_id := rirIde rirv
    let idv : ID :=
      if ext_id then ID.ExtendedID (rirv >>> 3)
      else ID.BaseID (rirStid rirv)
    let remote_frame := rirRtr rirv
    let dlc := (s.rdt 0) % 2 ^ 4
    if remote_frame then
      some (Except.ok (CanFrame.RemoteFrame idv), wrRfrRelease 0 s)
    else
      match set_data_length (DataFrame.new idv) dlc with
      | none => none
      | some df0 => rxFinish 0 s (rxDataGo (s.rdl 0) (s.rdh 0) (List.range dlc) df0)

/-- src/can.rs receive_fifo1: as receive_fifo0 on the FIFO-1 registers, but
the extended identifier is reconstructed from the EXID field or-ed with the
STID field shifted left by 18. -/
def receive_fifo1 (s : CanState) : Option (Except CanError CanFrame × CanState) :=
  let pending := s.fmp 1
  if pending = 0 then
    some (Except.error CanError.BufferExhausted, s)
  else
    let rirv := s.rir 1
    let ext_id := rirIde rirv
    let idv : ID :=
      if ext_id then ID.ExtendedID (rirExid rirv ||| (rirStid rirv <<< 18))
      else ID.BaseID (rirStid rirv)
    let remote_frame := rirRtr rirv
    let dlc := (s.rdt 1) % 2 ^ 4
    if remote_frame then
      some (Except.ok (CanFrame.RemoteFrame idv), wrRfrRelease 1 s)
    else
      match set_data_length (DataFrame.new idv) dlc with
      | none => none
      | some df0 => rxFinish 1 s (rxDataGo (s.rdl 1) (s.rdh 1) (List.range dlc) df0)

/-- src/can.rs receive: dispatch on the FIFO selector. -/
def receive (fifo : RxFifo) (s : CanState) :
    Option (Except CanError CanFrame × CanState) :=
  match fifo with
  | RxFifo.Fifo0 => receive_fifo0 s
  | RxFifo.Fifo1 => receive_fifo1 s

/-! ### Observations and specification-side predicates -/

/-- The mailbox transmit picks, following the fixed priority order the
arbiter checks in: 0, then 1, then 2; none when every mailbox is full. -/
def firstEmpty (s : CanState) : Option (Fin 3) :=
  if s.tme 0 then some 0
  else if s.tme 1 then some 1
  else if s.tme 2 then some 2
  else none

/-- Mailbox registers of mailbox m' agree between two states. -/
def mbRegsEq (s s' : CanState) (m' : Fin 3) : Prop :=
  s'.ti m' = s.ti m' ∧ s'.tdt m' = s.tdt m' ∧
  s'.tdl m' = s.tdl m' ∧ s'.tdh m' = s.tdh m'

/-- All mailbox registers other than mailbox m are untouched. -/
def mbOther (m : Fin 3) (s s' : CanState) : Prop :=
  ∀ m', m' ≠ m → mbRegsEq s s' m'

/-- Event e is a completion-status poll of mailbox m. -/
def isPollTx (m : Fin 3) : Ev → Bool
  | Ev.PollTx m' => m' == m
  | _ => false

/-- Event e is an abort-request write for mailbox m. -/
def isWrAbrq (m : Fin 3) : Ev → Bool
  | Ev.WrAbrq m' => m' == m
  | _ => false

/-- Number of completion-status polls of mailbox m in a log. -/
def nPollTx (m : Fin 3) (l : List Ev) : Nat := List.countP (isPollTx m) l

/-- Number of abort-request writes for mailbox m in a log. -/
def nWrAbrq (m : Fin 3) (l : List Ev) : Nat := List.countP (isWrAbrq m) l

/-- The encode phase preserves the TSR status bits and adds no poll or
abort-request events. -/
def encPres (s s' : CanState) : Prop :=
  s'.tme = s.tme ∧ s'.rqcp = s.rqcp ∧ s'.txok = s.txok ∧ s'.abrq = s.abrq ∧
  (∀ m, nPollTx m s'.log = nPollTx m s.log) ∧
  (∀ m, nWrAbrq m s'.log = nWrAbrq m s.log)

/-- k successive completion-status polls (the failed checks of the wait
loop before it gives up or succeeds). -/
def pollSpin (m : Fin 3) : Nat → CanState → CanState
  | 0, s => s
  | n + 1, s => pollSpin m n (logPoll m s)

/-- A frame the encoder accepts: a payload length within the eight lanes
(remote frames carry no payload). -/
def frameLenOk : CanFrame → Prop
  | CanFrame.DataFrame df => df.length ≤ 8
  | CanFrame.RemoteFrame _ => True

/-- The pending count of the selected FIFO. -/
def pending (s : CanState) : RxFifo → Nat
  | RxFifo.Fifo0 => s.fmp 0
  | RxFifo.Fifo1 => s.fmp 1

/-- The error of a filter-configuration result, if any. -/
def errOf : Except CanError Unit → Option CanError
  | Except.error e => some e
  | Except.ok _ => none

/-- Whether a transmit outcome is a success. -/
def txOutcomeOk : Option (Except CanError Unit × CanState) → Bool
  | some (Except.ok _, _) => true
  | _ => false

/-- Whether a receive outcome is a successfully decoded frame. -/
def rxOutcomeOk : Option (Except CanError CanFrame × CanState) → Bool
  | some (Except.ok _, _) => true
  | _ => false

/-- The identifier decoded by receive_fifo0, when it returns a frame. -/
def decodedIdFifo0 (s : CanState) : Option ID :=
  match receive_fifo0 s with
  | some (Except.ok f, _) => some f.id
  | _ => none

/-! ### Concrete states and configurations used by witnesses and
counterexamples -/

/-- A register state with every status flag clear and every register zero. -/
def zeroRegs : CanState where
  tme := fun _ => false
  rqcp := fun _ => false
  txok := fun _ => false
  abrq := fun _ => false
  ti := fun _ => 0
  tdt := fun _ => 0
  tdl := fun _ => 0
  tdh := fun _ => 0
  fmp := fun _ => 0
  rfom := fun _ => false
  fovr := fun _ => false
  fullf := fun _ => false
  rir := fun _ => 0
  rdt := fun _ => 0
  rdl := fun _ => 0
  rdh := fun _ => 0
  finit := false
  can2sb := 0
  fa1r := 0
  fm1r := 0
  ffa1r := 0
  fs1r := 0
  fr1 := fun _ => 0
  fr2 := fun _ => 0
  log := []

/-- Transmit-side state for the round-trip check: mailbox 0 empty and its
completion status already asserted, so the wait loop exits at once. -/
def c1TxState : CanState :=
  { zeroRegs with tme := fun _ => true, rqcp := fun _ => true, txok := fun _ => true }

/-- An extended-identifier data frame whose identifier value is 2^18: the
smallest extended identifier the encoder truncates. -/
def c1Frame : CanFrame :=
  CanFrame.DataFrame { id := ID.ExtendedID 262144, length := 0, data := fun _ => 0 }

/-- The state after loading c1Frame into mailbox 0. -/
def c1Loaded : CanState :=
  ((transmit c1Frame c1TxState).getD (Except.error CanError.Timeout, c1TxState)).2

/-- FIFO-0 receive state holding exactly the mailbox-0 register contents the
transmit encoder produced (TIxR and RIxR share their ID/IDE/RTR layout). -/
def c1RxState : CanState :=
  { zeroRegs with fmp := fun _ => 1, rir := fun _ => c1Loaded.ti 0,
                  rdt := fun _ => c1Loaded.tdt 0, rdl := fun _ => c1Loaded.tdl 0,
                  rdh := fun _ => c1Loaded.tdh 0 }

/-- A 32-bit-scale mask-mode configuration whose filter index 28 is the
first out-of-range one. -/
def c2x_cfg : CanFilterConfig :=
  { filter_number := 28, bank_number := 3, fifo_assignment := RxFifo.Fifo0,
    mode := FilterMode.IdMask, scale := FilterScale.Fs32Bit,
    filter_id_high := 0, filter_id_low := 0,
    filter_mask_id_high := 0, filter_mask_id_low := 0, enabled := true }

/-- A state in which filter 28's activation bit is set, so the deactivation
write is observable. -/
def c2x_state : CanState := { zeroRegs with fa1r := 2 ^ 28 }

/-- An out-of-range (index 30) configuration for the amended-claim witness. -/
def c2w_cfg : CanFilterConfig := { c2x_cfg with filter_number := 30 }

/-- The claim's concrete 32-bit-scale mask-mode filter values. -/
def c4w_cfg : CanFilterConfig :=
  { filter_number := 0, bank_number := 14, fifo_assignment := RxFifo.Fifo0,
    mode := FilterMode.IdMask, scale := FilterScale.Fs32Bit,
    filter_id_high := 0x1234, filter_id_low := 0x5678,
    filter_mask_id_high := 0x0000, filter_mask_id_low := 0xFFFF, enabled := true }

/-- Mailboxes empty but no completion status: the wait loop must time out. -/
def c6w_state : CanState := { zeroRegs with tme := fun _ => true }

def c6w_frame : CanFrame := CanFrame.RemoteFrame (ID.BaseID 3)

/-- A pending FIFO entry flagged remote (RIxR bit 1) whose DLC field is 9. -/
def c7x_state : CanState :=
  { zeroRegs with fmp := fun _ => 1, rir := fun _ => 2, rdt := fun _ => 9 }

/-- A pending non-remote FIFO entry whose DLC field is 9. -/
def c7y_state : CanState :=
  { zeroRegs with fmp := fun _ => 1, rir := fun _ => 0, rdt := fun _ => 9 }

/-- A pending non-remote FIFO entry whose DLC field is 12. -/
def c3x_state : CanState :=
  { zeroRegs with fmp := fun _ => 1, rir := fun _ => 0, rdt := fun _ => 12 }

/-- A 16-bit-scale configuration with out-of-range filter index 29. -/
def c8x_cfg : CanFilterConfig :=
  { c2x_cfg with filter_number := 29, scale := FilterScale.Fs16Bit }

/-- A state in which filter 29's 32-bit-scale bit is set, so the scale write
before the failure point is observable. -/
def c8x_state : CanState := { zeroRegs with fs1r := 2 ^ 29 }

/-- An in-range filter with a start-bank index of 64, one past what the
6-bit CAN2SB field can hold. -/
def c10x_cfg : CanFilterConfig := { c2x_cfg with filter_number := 0, bank_number := 64 }

/-! ### Helper lemmas: preservation through the encode phase -/

theorem encPres_refl (s : CanState) : encPres s s :=
  ⟨rfl, rfl, rfl, rfl, fun _ => rfl, fun _ => rfl⟩

theorem encPres_trans {a b c : CanState} (h1 : encPres a b) (h2 : encPres b c) :
    encPres a c := by
  obtain ⟨e1, e2, e3, e4, e5, e6⟩ := h1
  obtain ⟨f1, f2, f3, f4, f5, f6⟩ := h2
  exact ⟨f1.trans e1, f2.trans e2, f3.trans e3, f4.trans e4,
    fun m => (f5 m).trans (e5 m), fun m => (f6 m).trans (e6 m)⟩

theorem mbOther_refl (m : Fin 3) (s : CanState) : mbOther m s s :=
  fun _ _ => ⟨rfl, rfl, rfl, rfl⟩

theorem mbOther_trans {m : Fin 3} {a b c : CanState}
    (h1 : mbOther m a b) (h2 : mbOther m b c) : mbOther m a c := by
  intro m' hm'
  obtain ⟨x1, x2, x3, x4⟩ := h1 m' hm'
  obtain ⟨y1, y2, y3, y4⟩ := h2 m' hm'
  exact ⟨y1.trans x1, y2.trans x2, y3.trans x3, y4.trans x4⟩

theorem mbOther_of_all {m : Fin 3} {a b : CanState}
    (h1 : b.ti = a.ti) (h2 : b.tdt = a.tdt) (h3 : b.tdl = a.tdl)
    (h4 : b.tdh = a.tdh) : mbOther m a b :=
  fun m' _ => ⟨congrFun h1 m', congrFun h2 m', congrFun h3 m', congrFun h4 m'⟩

theorem nPollTx_cons_wr (m : Fin 3) (e : Ev) (l : List Ev)
    (h : isPollTx m e = false) : nPollTx m (e :: l) = nPollTx m l := by
  simp [nPollTx, List.countP_cons, h]

theorem nWrAbrq_cons_wr (m : Fin 3) (e : Ev) (l : List Ev)
    (h : isWrAbrq m e = false) : nWrAbrq m (e :: l) = nWrAbrq m l := by
  simp [nWrAbrq, List.countP_cons, h]

theorem wrTi_pres (m : Fin 3) (v : Nat) (s : CanState) :
    encPres s (wrTi m v s) ∧ mbOther m s (wrTi m v s) :=
  ⟨⟨rfl, rfl, rfl, rfl,
      fun m' => nPollTx_cons_wr m' (Ev.WrTi m) s.log rfl,
      fun m' => nWrAbrq_cons_wr m' (Ev.WrTi m) s.log rfl⟩,
    fun _ hm' => ⟨Function.update_noteq hm' _ _, rfl, rfl, rfl⟩⟩

theorem modTi_pres (m : Fin 3) (f : Nat → Nat) (s : CanState) :
    encPres s (modTi m f s) ∧ mbOther m s (modTi m f s) :=
  ⟨⟨rfl, rfl, rfl, rfl,
      fun m' => nPollTx_cons_wr m' (Ev.WrTi m) s.log rfl,
      fun m' => nWrAbrq_cons_wr m' (Ev.WrTi m) s.log rfl⟩,
    fun _ hm' => ⟨Function.update_noteq hm' _ _, rfl, rfl, rfl⟩⟩

theorem wrTdt_pres (m : Fin 3) (v : Nat) (s : CanState) :
    encPres s (wrTdt m v s) ∧ mbOther m s (wrTdt m v s) :=
  ⟨⟨rfl, rfl, rfl, rfl,
      fun m' => nPollTx_cons_wr m' (Ev.WrTdt m) s.log rfl,
      fun m' => nWrAbrq_cons_wr m' (Ev.WrTdt m) s.log rfl⟩,
    fun _ hm' => ⟨rfl, Function.update_noteq hm' _ _, rfl, rfl⟩⟩

theorem modTdt_pres (m : Fin 3) (f : Nat → Nat) (s : CanState) :
    encPres s (modTdt m f s) ∧ mbOther m s (modTdt m f s) :=
  ⟨⟨rfl, rfl, rfl, rfl,
      fun m' => nPollTx_cons_wr m' (Ev.WrTdt m) s.log rfl,
      fun m' => nWrAbrq_cons_wr m' (Ev.WrTdt m) s.log rfl⟩,
    fun _ hm' => ⟨rfl, Function.update_noteq hm' _ _, rfl, rfl⟩⟩

theorem wrTdlByte_pres (m : Fin 3) (j b : Nat) (s : CanState) :
    encPres s (wrTdlByte m j b s) ∧ mbOther m s (wrTdlByte m j b s) :=
  ⟨⟨rfl, rfl, rfl, rfl,
      fun m' => nPollTx_cons_wr m' (Ev.WrTdl m) s.log rfl,
      fun m' => nWrAbrq_cons_wr m' (Ev.WrTdl m) s.log rfl⟩,
    fun _ hm' => ⟨rfl, rfl, Function.update_noteq hm' _ _, rfl⟩⟩

theorem wrTdhByte_pres (m : Fin 3) (j b : Nat) (s : CanState) :
    encPres s (wrTdhByte m j b s) ∧ mbOther m s (wrTdhByte m j b s) :=
  ⟨⟨rfl, rfl, rfl, rfl,
      fun m' => nPollTx_cons_wr m' (Ev.WrTdh m) s.log rfl,
      fun m' => nWrAbrq_cons_wr m' (Ev.WrTdh m) s.log rfl⟩,
    fun _ hm' => ⟨rfl, rfl, rfl, Function.update_noteq hm' _ _⟩⟩

/-! ### Helper lemmas: the transmit data loop -/

theorem frameByte_lt (df : DataFrame) (i : Nat) (h : i < df.length) (h8 : i < 8) :
    frameByte df i = some (df.data ⟨i, h8⟩) := by
  unfold frameByte
  rw [dif_pos h, dif_pos h8]

theorem txLane_lt (m : Fin 3) (df : DataFrame) (i : Nat) (h : i < df.length)
    (h8 : i < 8) (s : CanState) :
    ∃ s', txLane m df i s = some (Except.ok s') ∧ encPres s s' ∧ mbOther m s s' := by
  interval_cases i <;>
    (simp only [txLane]
     rw [frameByte_lt df _ h (by decide)]
     first
     | exact ⟨_, rfl, (wrTdlByte_pres _ _ _ _).1, (wrTdlByte_pres _ _ _ _).2⟩
     | exact ⟨_, rfl, (wrTdhByte_pres _ _ _ _).1, (wrTdhByte_pres _ _ _ _).2⟩)

theorem txDataGo_ok_of_small (m : Fin 3) (df : DataFrame) (l : List Nat)
    (hall : ∀ i ∈ l, i < df.length) (hall8 : ∀ i ∈ l, i < 8) : ∀ s : CanState,
    ∃ s', txDataGo m df l s = some (Except.ok s') ∧ encPres s s' ∧ mbOther m s s' := by
  induction l with
  | nil => exact fun s => ⟨s, rfl, encPres_refl s, mbOther_refl m s⟩
  | cons i t ih =>
    intro s
    obtain ⟨s1, h1, hp1, ho1⟩ :=
      txLane_lt m df i (hall i (by simp)) (hall8 i (by simp)) s
    obtain ⟨s2, h2, hp2, ho2⟩ :=
      ih (fun j hj => hall j (by simp [hj])) (fun j hj => hall8 j (by simp [hj])) s1
    exact ⟨s2, by simp only [txDataGo, h1]; exact h2,
      encPres_trans hp1 hp2, mbOther_trans ho1 ho2⟩

/-! ### Helper lemmas: the completion wait loop -/

theorem pollLoopAux_timeout (m : Fin 3) :
    ∀ (k : Nat) (s : CanState), get_tx_status s m = false →
      pollLoopAux m k s =
        (Except.error CanError.Timeout, setAbrq m (pollSpin m (k + 1) s)) := by
  intro k
  induction k with
  | zero =>
    intro s h
    simp only [pollLoopAux]
    rw [show get_tx_status (logPoll m s) m = false from h]
    rfl
  | succ k ih =>
    intro s h
    simp only [pollLoopAux]
    rw [show get_tx_status (logPoll m s) m = false from h]
    exact ih (logPoll m s) h

theorem pollSpin_fields (m : Fin 3) : ∀ (n : Nat) (s : CanState),
    (pollSpin m n s).rqcp = s.rqcp ∧ (pollSpin m n s).txok = s.txok ∧
    (pollSpin m n s).tme = s.tme ∧ (pollSpin m n s).abrq = s.abrq ∧
    (pollSpin m n s).ti = s.ti ∧ (pollSpin m n s).tdt = s.tdt ∧
    (pollSpin m n s).tdl = s.tdl ∧ (pollSpin m n s).tdh = s.tdh := by
  intro n
  induction n with
  | zero => exact fun s => ⟨rfl, rfl, rfl, rfl, rfl, rfl, rfl, rfl⟩
  | succ n ih => exact fun s => ih (logPoll m s)

theorem pollSpin_nPollTx (m : Fin 3) : ∀ (n : Nat) (s : CanState),
    nPollTx m (pollSpin m n s).log = nPollTx m s.log + n := by
  intro n
  induction n with
  | zero => exact fun s => rfl
  | succ n ih =>
    intro s
    rw [pollSpin, ih (logPoll m s)]
    simp [logPoll, nPollTx, List.countP_cons, isPollTx]
    omega

theorem pollSpin_nWrAbrq (m : Fin 3) : ∀ (n : Nat) (s : CanState),
    nWrAbrq m (pollSpin m n s).log = nWrAbrq m s.log := by
  intro n
  induction n with
  | zero => exact fun s => rfl
  | succ n ih =>
    intro s
    rw [pollSpin, ih (logPoll m s)]
    exact nWrAbrq_cons_wr m (Ev.PollTx m) s.log rfl

theorem setAbrq_counts (m : Fin 3) (s : CanState) :
    nPollTx m (setAbrq m s).log = nPollTx m s.log ∧
    nWrAbrq m (setAbrq m s).log = nWrAbrq m s.log + 1 ∧
    (setAbrq m s).abrq m = true := by
  refine ⟨nPollTx_cons_wr m (Ev.WrAbrq m) s.log rfl, ?_, ?_⟩
  · simp [nWrAbrq, setAbrq, List.countP_cons, isWrAbrq]
  · show Function.update s.abrq m true m = true
    exact Function.update_same m true s.abrq

theorem pollLoopAux_mb (m : Fin 3) : ∀ (k : Nat) (s : CanState),
    ((pollLoopAux m k s).2).ti = s.ti ∧ ((pollLoopAux m k s).2).tdt = s.tdt ∧
    ((pollLoopAux m k s).2).tdl = s.tdl ∧ ((pollLoopAux m k s).2).tdh = s.tdh := by
  intro k
  induction k with
  | zero =>
    intro s
    simp only [pollLoopAux]
    split
    · exact ⟨rfl, rfl, rfl, rfl⟩
    · exact ⟨rfl, rfl, rfl, rfl⟩
  | succ k ih =>
    intro s
    simp only [pollLoopAux]
    split
    · exact ⟨rfl, rfl, rfl, rfl⟩
    · exact ih (logPoll m s)

/-! ### Helper lemmas: the transmit path assembled -/

theorem pollLoopAux_mbOther (m : Fin 3) (k : Nat) (s : CanState) :
    mbOther m s ((pollLoopAux m k s).2) :=
  mbOther_of_all (pollLoopAux_mb m k s).1 (pollLoopAux_mb m k s).2.1
    (pollLoopAux_mb m k s).2.2.1 (pollLoopAux_mb m k s).2.2.2

theorem transmit_mb_shape (m : Fin 3) (frame : CanFrame) (s : CanState)
    (hlen : frameLenOk frame) :
    ∃ s5, transmit_mb m frame s = some (pollLoopAux m (MAX_BLOCK_TICKS - 1) s5) ∧
      encPres s s5 := by
  rcases frame with ⟨idv, len, dat⟩ | i
  · have hq : len ≤ 8 := hlen
    have hsmall : ∀ i ∈ List.range len, i < len := fun i hi => List.mem_range.mp hi
    have hsmall8 : ∀ i ∈ List.range len, i < 8 := by
      intro i hi
      have := List.mem_range.mp hi
      omega
    rcases idv with v | v
    · have hA := wrTi_pres m (tirBase (idToU32 (ID.BaseID v))) s
      have hB := wrTdt_pres m ((len % 2 ^ 8) % 2 ^ 4)
        (wrTi m (tirBase (idToU32 (ID.BaseID v))) s)
      obtain ⟨s3, h3, hp3, -⟩ := txDataGo_ok_of_small m ⟨ID.BaseID v, len, dat⟩
        (List.range len) hsmall hsmall8
        (wrTdt m ((len % 2 ^ 8) % 2 ^ 4) (wrTi m (tirBase (idToU32 (ID.BaseID v))) s))
      have hC := modTdt_pres m (fun v => clearBit32 v 8) s3
      have hD := modTi_pres m (fun v => setBit32 v 0)
        (modTdt m (fun v => clearBit32 v 8) s3)
      refine ⟨modTi m (fun v => setBit32 v 0) (modTdt m (fun v => clearBit32 v 8) s3),
        ?_, ?_⟩
      · simp only [transmit_mb, CanFrame.id, if_pos hq, txFinish, h3]
      · exact encPres_trans hA.1 (encPres_trans hB.1
          (encPres_trans hp3 (encPres_trans hC.1 hD.1)))
    · have hA := wrTi_pres m (tirExtended (idToU32 (ID.ExtendedID v))) s
      have hB := wrTdt_pres m ((len % 2 ^ 8) % 2 ^ 4)
        (wrTi m (tirExtended (idToU32 (ID.ExtendedID v))) s)
      obtain ⟨s3, h3, hp3, -⟩ := txDataGo_ok_of_small m ⟨ID.ExtendedID v, len, dat⟩
        (List.range len) hsmall hsmall8
        (wrTdt m ((len % 2 ^ 8) % 2 ^ 4) (wrTi m (tirExtended (idToU32 (ID.ExtendedID v))) s))
      have hC := modTdt_pres m (fun v => clearBit32 v 8) s3
      have hD := modTi_pres m (fun v => setBit32 v 0)
        (modTdt m (fun v => clearBit32 v 8) s3)
      refine ⟨modTi m (fun v => setBit32 v 0) (modTdt m (fun v => clearBit32 v 8) s3),
        ?_, ?_⟩
      · simp only [transmit_mb, CanFrame.id, if_pos hq, txFinish, h3]
      · exact encPres_trans hA.1 (encPres_trans hB.1
          (encPres_trans hp3 (encPres_trans hC.1 hD.1)))
  · rcases i with v | v
    · have hA := wrTi_pres m (tirBase (idToU32 (ID.BaseID v))) s
      have hB := modTi_pres m (fun v => setBit32 v 1)
        (wrTi m (tirBase (idToU32 (ID.BaseID v))) s)
      have hC := wrTdt_pres m 0 (modTi m (fun v => setBit32 v 1)
        (wrTi m (tirBase (idToU32 (ID.BaseID v))) s))
      have hD := modTdt_pres m (fun v => clearBit32 v 8)
        (wrTdt m 0 (modTi m (fun v => setBit32 v 1)
          (wrTi m (tirBase (idToU32 (ID.BaseID v))) s)))
      have hE := modTi_pres m (fun v => setBit32 v 0)
        (modTdt m (fun v => clearBit32 v 8)
          (wrTdt m 0 (modTi m (fun v => setBit32 v 1)
            (wrTi m (tirBase (idToU32 (ID.BaseID v))) s))))
      exact ⟨_, rfl, encPres_trans hA.1 (encPres_trans hB.1
        (encPres_trans hC.1 (encPres_trans hD.1 hE.1)))⟩
    · have hA := wrTi_pres m (tirExtended (idToU32 (ID.ExtendedID v))) s
      have hB := modTi_pres m (fun v => setBit32 v 1)
        (wrTi m (tirExtended (idToU32 (ID.ExtendedID v))) s)
      have hC := wrTdt_pres m 0 (modTi m (fun v => setBit32 v 1)
        (wrTi m (tirExtended (idToU32 (ID.ExtendedID v))) s))
      have hD := modTdt_pres m (fun v => clearBit32 v 8)
        (wrTdt m 0 (modTi m (fun v => setBit32 v 1)
          (wrTi m (tirExtended (idToU32 (ID.ExtendedID v))) s)))
      have hE := modTi_pres m (fun v => setBit32 v 0)
        (modTdt m (fun v => clearBit32 v 8)
          (wrTdt m 0 (modTi m (fun v => setBit32 v 1)
            (wrTi m (tirExtended (idToU32 (ID.ExtendedID v))) s))))
      exact ⟨_, rfl, encPres_trans hA.1 (encPres_trans hB.1
        (encPres_trans hC.1 (encPres_trans hD.1 hE.1)))⟩

theorem transmit_mb_other (m : Fin 3) (frame : CanFrame) (s : CanState)
    (r : Except CanError Unit) (s' : CanState)
    (h : transmit_mb m frame s = some (r, s')) : mbOther m s s' := by
  rcases frame with ⟨idv, len, dat⟩ | i
  case DataFrame =>
    by_cases hq : len ≤ 8
    · have key : ∀ (tirv : Nat),
          txFinish m (txDataGo m ⟨idv, len, dat⟩ (List.range len)
            (wrTdt m ((len % 2 ^ 8) % 2 ^ 4) (wrTi m tirv s))) = some (r, s') →
          mbOther m s s' := by
        intro tirv hfin
        have hA := wrTi_pres m tirv s
        have hB := wrTdt_pres m ((len % 2 ^ 8) % 2 ^ 4) (wrTi m tirv s)
        obtain ⟨s3, h3, -, ho3⟩ := txDataGo_ok_of_small m ⟨idv, len, dat⟩
          (List.range len) (fun i hi => List.mem_range.mp hi)
          (fun i hi => by have := List.mem_range.mp hi; omega)
          (wrTdt m ((len % 2 ^ 8) % 2 ^ 4) (wrTi m tirv s))
        rw [h3] at hfin
        simp only [txFinish] at hfin
        have h2 := Option.some.inj hfin
        have hs' : s' = (pollLoopAux m (MAX_BLOCK_TICKS - 1)
            (modTi m (fun v => setBit32 v 0)
              (modTdt m (fun v => clearBit32 v 8) s3))).2 := by rw [h2]
        have hC := modTdt_pres m (fun v => clearBit32 v 8) s3
        have hD := modTi_pres m (fun v => setBit32 v 0)
          (modTdt m (fun v => clearBit32 v 8) s3)
        rw [hs']
        exact mbOther_trans hA.2 (mbOther_trans hB.2 (mbOther_trans ho3
          (mbOther_trans hC.2 (mbOther_trans hD.2 (pollLoopAux_mbOther m _ _)))))
      rcases idv with v | v
      · exact key (tirBase (idToU32 (ID.BaseID v)))
          (by simpa only [transmit_mb, CanFrame.id, if_pos hq] using h)
      · exact key (tirExtended (idToU32 (ID.ExtendedID v)))
          (by simpa only [transmit_mb, CanFrame.id, if_pos hq] using h)
    · exfalso
      rcases idv with v | v <;>
        · simp [transmit_mb, CanFrame.id, if_neg hq, txFinish] at h
  case RemoteFrame =>
    have key : ∀ (tirv : Nat),
        some (pollLoopAux m (MAX_BLOCK_TICKS - 1)
          (modTi m (fun v => setBit32 v 0)
            (modTdt m (fun v => clearBit32 v 8)
              (wrTdt m 0 (modTi m (fun v => setBit32 v 1)
                (wrTi m tirv s)))))) = some (r, s') →
        mbOther m s s' := by
      intro tirv hfin
      have hA := wrTi_pres m tirv s
      have hB := modTi_pres m (fun v => setBit32 v 1) (wrTi m tirv s)
      have hC := wrTdt_pres m 0 (modTi m (fun v => setBit32 v 1) (wrTi m tirv s))
      have hD := modTdt_pres m (fun v => clearBit32 v 8)
        (wrTdt m 0 (modTi m (fun v => setBit32 v 1) (wrTi m tirv s)))
      have hE := modTi_pres m (fun v => setBit32 v 0)
        (modTdt m (fun v => clearBit32 v 8)
          (wrTdt m 0 (modTi m (fun v => setBit32 v 1) (wrTi m tirv s))))
      have h2 := Option.some.inj hfin
      have hs' : s' = (pollLoopAux m (MAX_BLOCK_TICKS - 1)
          (modTi m (fun v => setBit32 v 0)
            (modTdt m (fun v => clearBit32 v 8)
              (wrTdt m 0 (modTi m (fun v => setBit32 v 1)
                (wrTi m tirv s)))))).2 := by rw [h2]
      rw [hs']
      exact mbOther_trans hA.2 (mbOther_trans hB.2 (mbOther_trans hC.2
        (mbOther_trans hD.2 (mbOther_trans hE.2 (pollLoopAux_mbOther m _ _)))))
    rcases i with v | v
    · exact key (tirBase (idToU32 (ID.BaseID v)))
        (by simpa only [transmit_mb, CanFrame.id, txFinish] using h)
    · exact key (tirExtended (idToU32 (ID.ExtendedID v)))
        (by simpa only [transmit_mb, CanFrame.id, txFinish] using h)

theorem transmit_dispatch (s : CanState) (frame : CanFrame) (m : Fin 3)
    (hsel : firstEmpty s = some m) : transmit frame s = transmit_mb m frame s := by
  by_cases h0 : s.tme 0
  · simp only [firstEmpty, h0, if_true] at hsel
    obtain rfl : (0 : Fin 3) = m := Option.some.inj hsel
    simp [transmit, h0]
  · by_cases h1 : s.tme 1
    · simp only [firstEmpty, h0, h1, if_false, if_true] at hsel
      obtain rfl : (1 : Fin 3) = m := Option.some.inj hsel
      simp [transmit, h0, h1]
    · by_cases h2 : s.tme 2
      · simp only [firstEmpty, h0, h1, h2, if_false, if_true] at hsel
        obtain rfl : (2 : Fin 3) = m := Option.some.inj hsel
        simp [transmit, h0, h1, h2]
      · simp [firstEmpty, h0, h1, h2] at hsel

/-! ### The claims -/

/-- C1: the claimed encode/decode symmetry fails on the code.  Transmitting
the extended-identifier data frame with identifier 2^18 (= 262144) through
mailbox 0 succeeds, but the encoder writes the 29-bit identifier through the
18-bit EXID field (which masks it) and leaves the STID bits zero, so
decoding the very register contents the encoder produced yields extended
identifier 0, not 262144.  The driver's own FIFO-1 decoder reconstructs
29-bit identifiers from both fields, so the encode side is a slip, not a
different identifier convention. -/
theorem c1_extended_id_truncated :
    txOutcomeOk (transmit c1Frame c1TxState) = true ∧
    decodedIdFifo0 c1RxState = some (ID.ExtendedID 0) ∧
    ID.ExtendedID 0 ≠ ID.ExtendedID 262144 := by decide

/-- C2 counterexample: configure_filter with filter index 28 (the claim's
out-of-range bank index) does return ConfigurationFailed, but it is false
that no register field is modified: the call clears the filter's activation
bit in FA1R. -/
theorem c2_counterexample :
    errOf (configure_filter c2x_cfg c2x_state).1 = some CanError.ConfigurationFailed ∧
    28 ≤ c2x_cfg.filter_number ∧
    ((configure_filter c2x_cfg c2x_state).2).fa1r ≠ c2x_state.fa1r := by decide

/-- C2 amended: for a filter index of 28 or more, configure_filter returns
ConfigurationFailed and writes no filter-identifier, filter-mode, or
FIFO-assignment register, but it does update the filter-master fields (FINIT
toggled and left clear, CAN2SB set to the bank number's low six bits) and
clears the masked filter bit in the activation register before failing. -/
theorem c2_oob_filter (s : CanState) (cfg : CanFilterConfig)
    (h : 28 ≤ cfg.filter_number) :
    (configure_filter cfg s).1 = Except.error CanError.ConfigurationFailed ∧
    ((configure_filter cfg s).2).fm1r = s.fm1r ∧
    ((configure_filter cfg s).2).ffa1r = s.ffa1r ∧
    ((configure_filter cfg s).2).fr1 = s.fr1 ∧
    ((configure_filter cfg s).2).fr2 = s.fr2 ∧
    ((configure_filter cfg s).2).finit = false ∧
    ((configure_filter cfg s).2).can2sb = cfg.bank_number % 2 ^ 6 ∧
    ((configure_filter cfg s).2).fa1r =
      mask32 (s.fa1r &&& not32 (filter_num_bitpos cfg.filter_number)) := by
  rcases cfg with ⟨fn, bn, fa, md, sc, ihg, ilw, mhg, mlw, en⟩
  have h28 : 28 ≤ fn := h
  have h' : ¬ fn < 28 := by omega
  rcases sc <;>
    (simp only [configure_filter, set_filter_scale]
     rw [dif_neg h']
     simp [wrFinit, wrCan2sb, modFa1r, modFs1r, modFm1r, modFfa1r])

theorem c2_oob_filter_witness :
    (configure_filter c2w_cfg zeroRegs).1 = Except.error CanError.ConfigurationFailed ∧
    ((configure_filter c2w_cfg zeroRegs).2).fm1r = zeroRegs.fm1r ∧
    ((configure_filter c2w_cfg zeroRegs).2).ffa1r = zeroRegs.ffa1r ∧
    ((configure_filter c2w_cfg zeroRegs).2).fr1 = zeroRegs.fr1 ∧
    ((configure_filter c2w_cfg zeroRegs).2).fr2 = zeroRegs.fr2 ∧
    ((configure_filter c2w_cfg zeroRegs).2).finit = false ∧
    ((configure_filter c2w_cfg zeroRegs).2).can2sb = c2w_cfg.bank_number % 2 ^ 6 ∧
    ((configure_filter c2w_cfg zeroRegs).2).fa1r =
      mask32 (zeroRegs.fa1r &&& not32 (filter_num_bitpos c2w_cfg.filter_number)) :=
  c2_oob_filter zeroRegs c2w_cfg (by decide)

/-- C3: the no-panic claim fails on the code.  Decoding a pending non-remote
FIFO-1 entry whose 4-bit DLC field reads 12 aborts (none, the model's panic
marker): the driver passes the DLC to the frame library's set_data_length,
whose length assertion fires before the driver's own InvalidFrame arm can
run, so this failure is a panic, not a returned CanError. -/
theorem c3_receive_dlc_aborts :
    receive_fifo1 c3x_state = none ∧
    (c3x_state.rdt 1) % 2 ^ 4 = 12 ∧
    rirRtr (c3x_state.rir 1) = false ∧
    c3x_state.fmp 1 ≠ 0 :=
  ⟨rfl, by decide, by decide, by decide⟩

/-- C4: a 32-bit-scale mask-mode filter with an in-range index writes the
bank's first register with (id_high shl 16) or id_low and its second
register with (mask_id_high shl 16) or mask_id_high, the call succeeding. -/
theorem c4_filter32_layout (s : CanState) (cfg : CanFilterConfig)
    (h28 : cfg.filter_number < 28) (hs : cfg.scale = FilterScale.Fs32Bit)
    (hm : cfg.mode = FilterMode.IdMask) :
    (configure_filter cfg s).1 = Except.ok () ∧
    ((configure_filter cfg s).2).fr1 ⟨cfg.filter_number, h28⟩ =
      mask32 ((cfg.filter_id_high <<< 16) ||| cfg.filter_id_low) ∧
    ((configure_filter cfg s).2).fr2 ⟨cfg.filter_number, h28⟩ =
      mask32 ((cfg.filter_mask_id_high <<< 16) ||| cfg.filter_mask_id_high) := by
  rcases cfg with ⟨fn, bn, fa, md, sc, ihg, ilw, mhg, mlw, en⟩
  dsimp only at hs hm h28 ⊢
  subst hs
  subst hm
  rcases fa <;> rcases en <;>
    (simp only [configure_filter, set_filter_scale]
     rw [dif_pos h28]
     simp [wrFinit, wrCan2sb, modFa1r, modFm1r, modFfa1r, modFs1r, wrFr1, wrFr2,
       Function.update_apply, Function.update_same])

/-- C4 witness at the claim's concrete values: id_high 0x1234, id_low
0x5678, mask_high 0, mask_low 0xFFFF produce first register 0x12345678 and
second register 0. -/
theorem c4_filter32_layout_witness :
    (configure_filter c4w_cfg zeroRegs).1 = Except.ok () ∧
    ((configure_filter c4w_cfg zeroRegs).2).fr1 ⟨0, by decide⟩ = 0x12345678 ∧
    ((configure_filter c4w_cfg zeroRegs).2).fr2 ⟨0, by decide⟩ = 0 := by
  have h := c4_filter32_layout zeroRegs c4w_cfg (by decide) rfl rfl
  exact ⟨h.1, h.2.1.trans (by decide), h.2.2.trans (by decide)⟩

/-- C5: transmit checks the mailbox-empty flags in the fixed order 0, 1, 2:
when none is set it returns BufferExhausted with the state untouched (no
mailbox register written), and when the first empty mailbox is m it runs the
single-mailbox load on m and leaves every other mailbox's registers
untouched. -/
theorem c5_tx_arbiter (s : CanState) (frame : CanFrame) :
    (firstEmpty s = none →
      transmit frame s = some (Except.error CanError.BufferExhausted, s)) ∧
    (∀ m : Fin 3, firstEmpty s = some m →
      transmit frame s = transmit_mb m frame s ∧
      ∀ r s', transmit frame s = some (r, s') → mbOther m s s') := by
  constructor
  · intro hn
    have h0 : ¬ s.tme 0 = true := by
      intro h
      simp [firstEmpty, h] at hn
    have h1 : ¬ s.tme 1 = true := by
      intro h
      simp [firstEmpty, h0, h] at hn
    have h2 : ¬ s.tme 2 = true := by
      intro h
      simp [firstEmpty, h0, h1, h] at hn
    simp [transmit, h0, h1, h2]
  · intro m hm
    have hd := transmit_dispatch s frame m hm
    refine ⟨hd, ?_⟩
    intro r s' h'
    exact transmit_mb_other m frame s r s' (hd.symm.trans h')

theorem c5_tx_arbiter_witness :
    transmit (CanFrame.RemoteFrame (ID.BaseID 1)) zeroRegs =
      some (Except.error CanError.BufferExhausted, zeroRegs) :=
  (c5_tx_arbiter zeroRegs (CanFrame.RemoteFrame (ID.BaseID 1))).1 (by decide)

/-- C6: a frame loaded into the first empty mailbox m whose completion
status (request-completed, transmit-ok and mailbox-empty) never asserts
makes transmit poll the status exactly MAX_BLOCK_TICKS (160) times, set the
mailbox's abort-request bit exactly once, and return Timeout. -/
theorem c6_timeout_budget (s : CanState) (frame : CanFrame) (m : Fin 3)
    (hsel : firstEmpty s = some m) (hstat : get_tx_status s m = false)
    (hlen : frameLenOk frame) :
    ∃ s', transmit frame s = some (Except.error CanError.Timeout, s') ∧
      s'.abrq m = true ∧
      nPollTx m s'.log = nPollTx m s.log + MAX_BLOCK_TICKS ∧
      nWrAbrq m s'.log = nWrAbrq m s.log + 1 := by
  obtain ⟨s5, hmb, hp⟩ := transmit_mb_shape m frame s hlen
  have hstat5 : get_tx_status s5 m = false := by
    unfold get_tx_status at hstat ⊢
    rw [hp.2.1, hp.2.2.1, hp.1]
    exact hstat
  have htime := pollLoopAux_timeout m (MAX_BLOCK_TICKS - 1) s5 hstat5
  have hN : MAX_BLOCK_TICKS - 1 + 1 = MAX_BLOCK_TICKS := by decide
  refine ⟨setAbrq m (pollSpin m (MAX_BLOCK_TICKS - 1 + 1) s5), ?_, ?_, ?_, ?_⟩
  · rw [transmit_dispatch s frame m hsel, hmb, htime]
  · exact (setAbrq_counts m (pollSpin m (MAX_BLOCK_TICKS - 1 + 1) s5)).2.2
  · rw [(setAbrq_counts m (pollSpin m (MAX_BLOCK_TICKS - 1 + 1) s5)).1,
      pollSpin_nPollTx m (MAX_BLOCK_TICKS - 1 + 1) s5, hN, hp.2.2.2.2.1 m]
  · rw [(setAbrq_counts m (pollSpin m (MAX_BLOCK_TICKS - 1 + 1) s5)).2.1,
      pollSpin_nWrAbrq m (MAX_BLOCK_TICKS - 1 + 1) s5, hp.2.2.2.2.2 m]

theorem c6_timeout_budget_witness :
    ∃ s', transmit c6w_frame c6w_state = some (Except.error CanError.Timeout, s') ∧
      s'.abrq 0 = true ∧
      nPollTx 0 s'.log = nPollTx 0 c6w_state.log + MAX_BLOCK_TICKS ∧
      nWrAbrq 0 s'.log = nWrAbrq 0 c6w_state.log + 1 :=
  c6_timeout_budget c6w_state c6w_frame 0 (by decide) (by decide) trivial

/-- C7: the invalid-length rejection claim fails on the code, in both
directions.  A pending non-remote FIFO-0 entry whose DLC field reads 9
aborts in the frame library's length assertion (none, the model's panic
marker) instead of yielding InvalidFrame, while a pending remote entry with
the same DLC decodes successfully, its DLC ignored; and a Data Frame with
payload length above 8 cannot be constructed through the frame interface
(set_data_length rejects it), so the encoder's InvalidFrame arm is
unreachable as well. -/
theorem c7_dlc_over_eight :
    receive_fifo0 c7y_state = none ∧
    (c7y_state.rdt 0) % 2 ^ 4 = 9 ∧
    rirRtr (c7y_state.rir 0) = false ∧
    rxOutcomeOk (receive_fifo0 c7x_state) = true ∧
    (c7x_state.rdt 0) % 2 ^ 4 = 9 ∧
    rirRtr (c7x_state.rir 0) = true ∧
    set_data_length (DataFrame.new (ID.BaseID 1)) 9 = none :=
  ⟨rfl, by decide, by decide, by decide, by decide, by decide, rfl⟩

/-- C8 counterexample: configure_filter with a 16-bit-scale configuration at
out-of-range index 29 returns ConfigurationFailed, but the scale register
bit it cleared before the failure point is not restored. -/
theorem c8_counterexample :
    errOf (configure_filter c8x_cfg c8x_state).1 = some CanError.ConfigurationFailed ∧
    ((configure_filter c8x_cfg c8x_state).2).fs1r ≠ c8x_state.fs1r := by decide

/-- C8 amended: every call to configure_filter clears the FINIT flag before
returning, on the success and the error path alike (earlier writes are not
rolled back on error; see the counterexample). -/
theorem c8_finit_always_cleared (s : CanState) (cfg : CanFilterConfig) :
    ((configure_filter cfg s).2).finit = false := by
  rcases cfg with ⟨fn, bn, fa, md, sc, ihg, ilw, mhg, mlw, en⟩
  rcases sc <;> by_cases h : fn < 28 <;>
    simp only [configure_filter, set_filter_scale]
  all_goals first
    | (rw [dif_pos h]; rfl)
    | (rw [dif_neg h]; rfl)

/-- C9: receive on a FIFO whose pending count reads zero returns
BufferExhausted with the state unchanged: no register write happens (the
write log is part of the state), so the release, overrun and full bits are
untouched. -/
theorem c9_receive_empty (s : CanState) (fifo : RxFifo)
    (h : pending s fifo = 0) :
    receive fifo s = some (Except.error CanError.BufferExhausted, s) := by
  cases fifo
  · show receive_fifo0 s = _
    have h0 : s.fmp 0 = 0 := h
    simp only [receive_fifo0]
    rw [if_pos h0]
  · show receive_fifo1 s = _
    have h1 : s.fmp 1 = 0 := h
    simp only [receive_fifo1]
    rw [if_pos h1]

theorem c9_receive_empty_witness :
    receive RxFifo.Fifo0 zeroRegs =
      some (Except.error CanError.BufferExhausted, zeroRegs) :=
  c9_receive_empty zeroRegs RxFifo.Fifo0 (by decide)

/-- C10 counterexample: a call with bank_number 64 leaves the CAN2SB
partition field at 0, not 64: the 6-bit field cannot hold the full u8 bank
number, so the partition does not always equal the most recent call's
bank_number. -/
theorem c10_counterexample :
    ((configure_filter c10x_cfg zeroRegs).2).can2sb ≠ c10x_cfg.bank_number := by
  decide

/-- C10 amended: every configure_filter call, before the per-filter
programming, writes the low six bits of the configuration's bank_number into
the shared filter-master CAN2SB field, so after any sequence of calls the
partition equals the most recent call's bank_number modulo 64. -/
theorem c10_can2sb_partition (s : CanState) (cfg : CanFilterConfig) :
    ((configure_filter cfg s).2).can2sb = cfg.bank_number % 2 ^ 6 := by
  rcases cfg with ⟨fn, bn, fa, md, sc, ihg, ilw, mhg, mlw, en⟩
  rcases sc <;> by_cases h : fn < 28 <;>
    simp only [configure_filter, set_filter_scale]
  all_goals first
    | (rw [dif_pos h]; rcases fa <;> rcases md <;> rcases en <;> rfl)
    | (rw [dif_neg h]; rfl)

end Can
